import Mathlib

/-!
Verification of the ClipGen event-detection core against its specification.

The development shallowly embeds the two source files of the repository:

* `clipboard_mon.py` — the global clipboard monitor
  (`GlobalClipboardMonitor._handle_clipboard_update` and the state it carries);
* `main.py` — the hotkey capture layer (`on_press` / `on_release`) and the
  text-transform pipeline (`process_text_with_gemini`, `_handle_text_operation`).

Timestamps (Python `time.time()` floats compared with exact decimal constants)
are modelled as rationals; clipboard and key payloads as `String`; Python
exceptions as `Except`; side effects of the transform pipeline as an explicit
effect trace.  Python's `str.strip()` truthiness test is modelled with Lean's
`String.trim` (both remove leading/trailing whitespace).
-/

namespace ClipGen

/-- State carried by `GlobalClipboardMonitor` between clipboard observations:
`_last_copy_time : float = 0.0` and `_last_clipboard_content : Optional[str] = ''`
(note the initial value is the empty string, not `None`). -/
structure MonitorState where
  lastCopyTime : ℚ
  lastClipboardContent : Option String
deriving DecidableEq, Repr

/-- The monitor's initial state: `_last_copy_time = 0.0`,
`_last_clipboard_content = ''`. -/
def initial_monitor_state : MonitorState := ⟨0, some ""⟩

/-- The constructor default `repeat_threshold: float = 0.5`. -/
def repeat_threshold_default : ℚ := 1/2

/-- One clipboard-change notification as seen by `_handle_clipboard_update`:
the wall-clock time `time.time()`, the raw text `pyperclip.paste()` returned
(always a string), and whether `ImageGrab.grabclipboard()` yielded an image. -/
structure Obs where
  now : ℚ
  clipboardText : String
  imagePresent : Bool
deriving DecidableEq, Repr

/-- Line 125 of `clipboard_mon.py`: the `text` variable handed to the callback
is the raw clipboard text when it is a non-blank string (truthy after
`.strip()`), else `None`. -/
def text_of (clipboardText : String) : Option String :=
  if clipboardText.trim = "" then none else some clipboardText

/-- Embedding of `GlobalClipboardMonitor._handle_clipboard_update`
(`clipboard_mon.py` lines 112-147), exception-free path (reads succeed and the
callback returns normally; the exception-carrying variant is
`handle_clipboard_update_exc` below).  Returns the new monitor state, whether
the repeat branch fired, and — when it fired — the `(text, image)` argument
pair the command callback was invoked with. -/
def handle_clipboard_update (threshold : ℚ) (s : MonitorState) (now : ℚ)
    (clipboardText : String) (imagePresent : Bool) :
    MonitorState × Bool × Option (Option String × Bool) :=
  if s.lastClipboardContent ≠ none ∧ now - s.lastCopyTime < threshold ∧
      now - s.lastCopyTime > 9/100 ∧ some clipboardText = s.lastClipboardContent then
    (⟨now + 4, some ""⟩, true, some (text_of clipboardText, imagePresent))
  else if now > s.lastCopyTime then
    (⟨now, some clipboardText⟩, false, none)
  else
    (s, false, none)

/-- Process a sequence of clipboard observations, recording for each the
monitor state at the moment the observation was handled and whether the repeat
branch fired on it. -/
def run_monitor (threshold : ℚ) : MonitorState → List Obs → List (MonitorState × Obs × Bool)
  | _, [] => []
  | s, o :: rest =>
    (s, o, (handle_clipboard_update threshold s o.now o.clipboardText o.imagePresent).2.1) ::
      run_monitor threshold
        (handle_clipboard_update threshold s o.now o.clipboardText o.imagePresent).1 rest

theorem handle_fired_iff (threshold : ℚ) (s : MonitorState) (now : ℚ)
    (txt : String) (img : Bool) :
    (handle_clipboard_update threshold s now txt img).2.1 = true ↔
      (s.lastClipboardContent ≠ none ∧ now - s.lastCopyTime < threshold ∧
        now - s.lastCopyTime > 9/100 ∧ some txt = s.lastClipboardContent) := by
  unfold handle_clipboard_update
  split_ifs with hc hn <;> simp [hc]

theorem run_monitor_fired_iff (threshold : ℚ) :
    ∀ (obs : List Obs) (s₀ : MonitorState) (p : MonitorState × Obs × Bool),
      p ∈ run_monitor threshold s₀ obs →
      (p.2.2 = true ↔ (p.1.lastClipboardContent ≠ none ∧
        p.2.1.now - p.1.lastCopyTime < threshold ∧
        p.2.1.now - p.1.lastCopyTime > 9/100 ∧
        some p.2.1.clipboardText = p.1.lastClipboardContent)) := by
  intro obs
  induction obs with
  | nil => intro s₀ p hp; simp [run_monitor] at hp
  | cons o rest ih =>
    intro s₀ p hp
    rw [run_monitor, List.mem_cons] at hp
    rcases hp with rfl | h
    · simpa using handle_fired_iff threshold s₀ o.now o.clipboardText o.imagePresent
    · exact ih _ p h

/-- C1: along any sequence of clipboard observations, the repeat callback fires
at an observation iff a previous content is stored, the raw current clipboard
text equals it by exact string equality, and the gap between the observation
time and the stored timestamp lies strictly between 0.09 and the repeat
threshold (0.5 by default); at gap exactly 0.09 or exactly the threshold no
repeat fires. -/
theorem repeat_fires_iff_spec (threshold : ℚ) (s₀ : MonitorState) (obs : List Obs)
    (p : MonitorState × Obs × Bool) (hp : p ∈ run_monitor threshold s₀ obs) :
    p.2.2 = true ↔
      ((∃ prev, p.1.lastClipboardContent = some prev ∧ p.2.1.clipboardText = prev) ∧
        9/100 < p.2.1.now - p.1.lastCopyTime ∧
        p.2.1.now - p.1.lastCopyTime < threshold) := by
  rw [run_monitor_fired_iff threshold obs s₀ p hp]
  constructor
  · rintro ⟨hne, hlt, hgt, heq⟩
    exact ⟨⟨p.2.1.clipboardText, heq.symm, rfl⟩, hgt, hlt⟩
  · rintro ⟨⟨prev, hsome, hval⟩, hgt, hlt⟩
    refine ⟨by simp [hsome], hlt, hgt, ?_⟩
    rw [hsome, hval]

theorem repeat_fires_iff_spec_witness :
    (((⟨1/5, some "a"⟩ : MonitorState), (⟨2/5, "a", false⟩ : Obs), true).2.2 = true ↔
      ((∃ prev, ((⟨1/5, some "a"⟩ : MonitorState)).lastClipboardContent = some prev ∧
          ((⟨2/5, "a", false⟩ : Obs)).clipboardText = prev) ∧
        9/100 < ((⟨2/5, "a", false⟩ : Obs)).now - ((⟨1/5, some "a"⟩ : MonitorState)).lastCopyTime ∧
        ((⟨2/5, "a", false⟩ : Obs)).now - ((⟨1/5, some "a"⟩ : MonitorState)).lastCopyTime <
          repeat_threshold_default)) :=
  repeat_fires_iff_spec repeat_threshold_default initial_monitor_state
    [⟨1/5, "a", false⟩, ⟨2/5, "a", false⟩]
    (⟨1/5, some "a"⟩, ⟨2/5, "a", false⟩, true)
    (of_decide_eq_true (by with_unfolding_all rfl))

theorem handle_fired_state (threshold : ℚ) (s : MonitorState) (now : ℚ)
    (txt : String) (img : Bool)
    (h : (handle_clipboard_update threshold s now txt img).2.1 = true) :
    (handle_clipboard_update threshold s now txt img).1 = ⟨now + 4, some ""⟩ := by
  revert h
  unfold handle_clipboard_update
  split_ifs <;> simp

theorem handle_cooldown_fixed (threshold T : ℚ) (c : Option String) (o : Obs)
    (h : o.now ≤ T) :
    handle_clipboard_update threshold ⟨T, c⟩ o.now o.clipboardText o.imagePresent =
      (⟨T, c⟩, false, none) := by
  unfold handle_clipboard_update
  have h1 : ¬(o.now - T > 9/100) := by
    intro hgt
    have h9 : (0:ℚ) < 9/100 := by norm_num
    linarith
  have h2 : ¬(o.now > T) := not_lt.mpr h
  split_ifs with hA
  · exact absurd hA.2.2.1 h1
  · rfl

theorem run_monitor_cooldown_quiet (threshold T : ℚ) (c : Option String) :
    ∀ (obs : List Obs), (∀ o ∈ obs, o.now ≤ T) →
      ∀ p ∈ run_monitor threshold ⟨T, c⟩ obs, p.2.2 = false := by
  intro obs
  induction obs with
  | nil => intro _ p hp; simp [run_monitor] at hp
  | cons o rest ih =>
    intro hall p hp
    have ho : o.now ≤ T := hall o (List.mem_cons_self o rest)
    rw [run_monitor, handle_cooldown_fixed threshold T c o ho] at hp
    rcases List.mem_cons.mp hp with rfl | h
    · rfl
    · exact ih (fun o' ho' => hall o' (List.mem_cons_of_mem o ho')) p h

/-- C4: when a repeat fires at time `t` the monitor moves to the cool-down
state (`lastObservedAt = t + 4`, `lastContent` cleared), and no observation
occurring within the following 4 seconds — whatever its content — fires another
repeat. -/
theorem cooldown_suppresses_repeats (threshold : ℚ) (s : MonitorState) (t : ℚ)
    (txt : String) (img : Bool)
    (hfire : (handle_clipboard_update threshold s t txt img).2.1 = true)
    (obs : List Obs) (hobs : ∀ o ∈ obs, o.now ≤ t + 4) :
    ∀ p ∈ run_monitor threshold (handle_clipboard_update threshold s t txt img).1 obs,
      p.2.2 = false := by
  rw [handle_fired_state threshold s t txt img hfire]
  exact run_monitor_cooldown_quiet threshold (t + 4) (some "") obs hobs

theorem cooldown_suppresses_repeats_witness :
    (((⟨1/5 + 4, some ""⟩ : MonitorState), (⟨1, "a", false⟩ : Obs), false) :
        MonitorState × Obs × Bool).2.2 = false :=
  cooldown_suppresses_repeats repeat_threshold_default ⟨0, some "a"⟩ (1/5) "a" false
    (of_decide_eq_true (by with_unfolding_all rfl))
    [⟨1, "a", false⟩, ⟨21/5, "a", false⟩]
    (by intro o ho; fin_cases ho <;> norm_num)
    (⟨1/5 + 4, some ""⟩, ⟨1, "a", false⟩, false)
    (of_decide_eq_true (by with_unfolding_all rfl))

/-- C6: on an observation the repeat branch does not take (including the very
first observation), the baseline is refreshed to the raw current text and the
current time iff `now` is strictly later than the stored timestamp; with the
stored timestamp in the future (the cool-down window) the state is left
untouched. -/
theorem baseline_update_iff (threshold : ℚ) (s : MonitorState) (now : ℚ)
    (txt : String) (img : Bool)
    (h : (handle_clipboard_update threshold s now txt img).2.1 = false) :
    (handle_clipboard_update threshold s now txt img).1 =
      if now > s.lastCopyTime then ⟨now, some txt⟩ else s := by
  revert h
  unfold handle_clipboard_update
  split_ifs <;> simp_all

theorem baseline_update_iff_witness :
    (handle_clipboard_update repeat_threshold_default initial_monitor_state 5 "a" false).1 =
      if (5:ℚ) > initial_monitor_state.lastCopyTime then ⟨5, some "a"⟩
      else initial_monitor_state :=
  baseline_update_iff repeat_threshold_default initial_monitor_state 5 "a" false
    (of_decide_eq_true (by with_unfolding_all rfl))

/-- C10: when the repeat branch fires, the `text` argument handed to the
callback is `None` whenever the raw clipboard text strips to the empty string,
even though the repeat comparison itself used the raw unstripped string. -/
theorem repeat_callback_text_none (threshold : ℚ) (s : MonitorState) (now : ℚ)
    (txt : String) (img : Bool)
    (hfire : (handle_clipboard_update threshold s now txt img).2.1 = true)
    (hblank : txt.trim = "") :
    (handle_clipboard_update threshold s now txt img).2.2 = some (none, img) := by
  revert hfire
  unfold handle_clipboard_update
  split_ifs with hc hn <;> intro hfire
  · simp [text_of, hblank]
  all_goals simp_all

theorem repeat_callback_text_none_witness :
    (handle_clipboard_update repeat_threshold_default ⟨0, some " "⟩ (1/5) " " false).2.2 =
      some (none, false) :=
  repeat_callback_text_none repeat_threshold_default ⟨0, some " "⟩ (1/5) " " false
    (of_decide_eq_true (by with_unfolding_all rfl))
    (of_decide_eq_true (by with_unfolding_all rfl))

/-- The body of the `try:` block of `_handle_clipboard_update`, with the two
clipboard reads and the callback invocation allowed to raise (Python
exceptions modelled as `Except String`).  An `.error` propagates out of the
point where it is raised, skipping every later statement of the body — in
particular the state assignments. -/
def handle_clipboard_update_exc (threshold : ℚ) (s : MonitorState) (now : ℚ)
    (readText : Except String String) (readImage : Except String Bool)
    (callback : Option String → Bool → Except String Unit) :
    Except String (MonitorState × Bool) :=
  match readText with
  | .error e => .error e
  | .ok clipboardText =>
    match readImage with
    | .error e => .error e
    | .ok imagePresent =>
      if s.lastClipboardContent ≠ none ∧ now - s.lastCopyTime < threshold ∧
          now - s.lastCopyTime > 9/100 ∧ some clipboardText = s.lastClipboardContent then
        match callback (text_of clipboardText) imagePresent with
        | .error e => .error e
        | .ok _ => .ok (⟨now + 4, some ""⟩, true)
      else if now > s.lastCopyTime then
        .ok (⟨now, some clipboardText⟩, false)
      else
        .ok (s, false)

/-- One fallible clipboard observation: wall-clock time, the outcome of
`pyperclip.paste()`, the outcome of `ImageGrab.grabclipboard()`, and the
registered callback (which itself may raise). -/
structure FallibleObs where
  now : ℚ
  readText : Except String String
  readImage : Except String Bool
  callback : Option String → Bool → Except String Unit

/-- `_handle_clipboard_update` with its enclosing `try/except Exception`: any
exception in the body is caught, the handler logs and returns normally with
the state as the failure point left it (no assignment after the raise has
executed, so the state is unchanged). -/
def handle_clipboard_update_safe (threshold : ℚ) (s : MonitorState) (o : FallibleObs) :
    MonitorState × Bool :=
  match handle_clipboard_update_exc threshold s o.now o.readText o.readImage o.callback with
  | .ok r => r
  | .error _ => (s, false)

/-- The monitoring loop: every clipboard observation is handled in turn
through the catching handler; one entry of the result per observation. -/
def run_monitor_safe (threshold : ℚ) : MonitorState → List FallibleObs → List Bool
  | _, [] => []
  | s, o :: rest =>
    (handle_clipboard_update_safe threshold s o).2 ::
      run_monitor_safe threshold (handle_clipboard_update_safe threshold s o).1 rest

theorem run_monitor_safe_length (threshold : ℚ) :
    ∀ (obs : List FallibleObs) (s : MonitorState),
      (run_monitor_safe threshold s obs).length = obs.length := by
  intro obs
  induction obs with
  | nil => intro s; rfl
  | cons o rest ih => intro s; simp [run_monitor_safe, ih]

/-- C8: a failure anywhere in one observation's handling — a failed clipboard
read or an exception from the registered callback — is caught within that
observation: the handler returns normally (state unchanged, nothing fired),
and the monitoring loop goes on to produce an outcome for every subsequent
observation of any sequence. -/
theorem handler_catches_all (threshold : ℚ) (s : MonitorState) :
    (∀ o : FallibleObs, ∀ e : String,
        handle_clipboard_update_exc threshold s o.now o.readText o.readImage o.callback =
          .error e →
        handle_clipboard_update_safe threshold s o = (s, false)) ∧
      ∀ obs : List FallibleObs, (run_monitor_safe threshold s obs).length = obs.length := by
  constructor
  · intro o e he
    unfold handle_clipboard_update_safe
    rw [he]
  · intro obs
    exact run_monitor_safe_length threshold obs s

theorem handler_catches_all_witness :
    handle_clipboard_update_safe repeat_threshold_default initial_monitor_state
        ⟨0, Except.error "boom", Except.ok false, fun _ _ => Except.ok ()⟩ =
        (initial_monitor_state, false) ∧
      (run_monitor_safe repeat_threshold_default initial_monitor_state
          [⟨0, Except.error "boom", Except.ok false, fun _ _ => Except.ok ()⟩]).length = 1 :=
  ⟨(handler_catches_all repeat_threshold_default initial_monitor_state).1
      ⟨0, Except.error "boom", Except.ok false, fun _ _ => Except.ok ()⟩ "boom" rfl,
    (handler_catches_all repeat_threshold_default initial_monitor_state).2
      [⟨0, Except.error "boom", Except.ok false, fun _ _ => Except.ok ()⟩]⟩

/-! ## Hotkey capture layer (`main.py`) -/

/-- Whether the character list `hay` starts with `needle`. -/
def chars_lead (hay needle : List Char) : Bool :=
  match hay, needle with
  | _, [] => true
  | [], _ :: _ => false
  | a :: as, b :: bs => a == b && chars_lead as bs

/-- Whether `needle` occurs contiguously inside `hay`. -/
def chars_contain (needle : List Char) : List Char → Bool
  | [] => needle.isEmpty
  | c :: t => chars_lead (c :: t) needle || chars_contain needle t

/-- Python's substring containment test `needle in hay` for strings. -/
def py_in (needle hay : String) : Bool := chars_contain needle.data hay.data

/-- ASCII lower-casing of one character, as `str.lower()` acts on the ASCII
range the configuration combinations use. -/
def lower_char (c : Char) : Char :=
  if 'A' ≤ c ∧ c ≤ 'Z' then Char.ofNat (c.toNat + 32) else c

/-- `str.lower()` restricted to ASCII. -/
def py_lower (s : String) : String := ⟨s.data.map lower_char⟩

/-- One entry of `current_config['hotkeys']`: the combination string from the
configuration file and the action identifier `description[1]`. -/
structure Hotkey where
  combination : String
  action : String
deriving DecidableEq, Repr

/-- The tracked modifier flags of the `key_states` dictionary (`ctrl`, `alt`);
a key absent from the dictionary reads as false through `.get`. -/
structure KeyStates where
  ctrl : Bool
  alt : Bool
deriving DecidableEq, Repr

/-- The match test of the `on_press` loop (`main.py` lines 171-174): the key
string occurs in the lower-cased combination string (Python substring `in`),
and — disjunctively — the combination names `ctrl` with ctrl currently down,
or names `alt` with alt currently down. -/
def hotkey_matches (keyStr : String) (ks : KeyStates) (h : Hotkey) : Bool :=
  py_in keyStr (py_lower h.combination) &&
    ((py_in "ctrl" (py_lower h.combination) && ks.ctrl) ||
      (py_in "alt" (py_lower h.combination) && ks.alt))

/-- `main.py` lines 158-159 / 192: the left/right Ctrl key names after the
`str(key).lower().replace("key.", "")` normalisation (which this embedding
takes as already applied to its input). -/
def is_ctrl_key (keyStr : String) : Bool := keyStr == "ctrl_l" || keyStr == "ctrl_r"

/-- `main.py` lines 161-162 / 194: the Alt key names, the AltGr variant
included. -/
def is_alt_key (keyStr : String) : Bool :=
  keyStr == "alt_l" || keyStr == "alt_r" || keyStr == "alt_gr"

/-- The hotkey scan of `on_press` (`main.py` lines 166-182): bindings are
tested in table order; the first match enqueues its action and breaks. -/
def scan_hotkeys (keyStr : String) (ks : KeyStates) : List Hotkey → Option String
  | [] => none
  | h :: rest =>
    if hotkey_matches keyStr ks h then some h.action else scan_hotkeys keyStr ks rest

/-- Embedding of `on_press` (`main.py` lines 151-184): a Ctrl/Alt press sets
the corresponding flag and returns; otherwise the hotkey table is scanned
and, on a match, the action is enqueued and both modifier flags are cleared
(lines 179-180).  Returns the new `key_states` and the enqueued action, if
any. -/
def on_press (keyStr : String) (ks : KeyStates) (hotkeys : List Hotkey) :
    KeyStates × Option String :=
  if is_ctrl_key keyStr then ({ ks with ctrl := true }, none)
  else if is_alt_key keyStr then ({ ks with alt := true }, none)
  else
    match scan_hotkeys keyStr ks hotkeys with
    | some a => (⟨false, false⟩, some a)
    | none => (ks, none)

/-- Embedding of `on_release` (`main.py` lines 186-198): a Ctrl/Alt release
clears the corresponding flag; any other key leaves the state unchanged. -/
def on_release (keyStr : String) (ks : KeyStates) : KeyStates :=
  if is_ctrl_key keyStr then { ks with ctrl := false }
  else if is_alt_key keyStr then { ks with alt := false }
  else ks

/-- A raw key event as delivered by the global listener. -/
inductive KeyEvent where
  | press (keyStr : String)
  | release (keyStr : String)
deriving DecidableEq, Repr

/-- Feed a key-event stream through `on_press`/`on_release`, recording for
each event the action it enqueued (`none` for releases and non-matching
presses). -/
def run_key_events (hotkeys : List Hotkey) :
    KeyStates → List KeyEvent → KeyStates × List (Option String)
  | ks, [] => (ks, [])
  | ks, KeyEvent.press k :: rest =>
    (
      (run_key_events hotkeys (on_press k ks hotkeys).1 rest).1,
      (on_press k ks hotkeys).2 ::
        (run_key_events hotkeys (on_press k ks hotkeys).1 rest).2)
  | ks, KeyEvent.release k :: rest =>
    ((run_key_events hotkeys (on_release k ks) rest).1,
      none :: (run_key_events hotkeys (on_release k ks) rest).2)

/-- The matching rule exactly as claim C3 states it: the event's key belongs
to the binding's chord and EVERY modifier the chord requires is down (chord
membership read as the same substring containment the code uses, so that only
the modifier logic is at stake). -/
def claim_c3_matches (keyStr : String) (ks : KeyStates) (h : Hotkey) : Bool :=
  py_in keyStr (py_lower h.combination) &&
    (!(py_in "ctrl" (py_lower h.combination)) || ks.ctrl) &&
    (!(py_in "alt" (py_lower h.combination)) || ks.alt)

/-- C3, counterexample: with the single binding `ctrl+alt+q → act`, pressing
`q` with ctrl down but alt up produces the action, although the chord also
requires alt — the code tests the required modifiers disjunctively, not
conjunctively as the claim states, so a binding the claim's rule rejects
still fires. -/
theorem on_press_modifier_conjunction_cex :
    (on_press "q" ⟨true, false⟩ [⟨"ctrl+alt+q", "act"⟩]).2 = some "act" ∧
      claim_c3_matches "q" ⟨true, false⟩ ⟨"ctrl+alt+q", "act"⟩ = false :=
  of_decide_eq_true (by with_unfolding_all rfl)

theorem scan_hotkeys_eq_find (keyStr : String) (ks : KeyStates) :
    ∀ hotkeys : List Hotkey,
      scan_hotkeys keyStr ks hotkeys =
        (hotkeys.find? (hotkey_matches keyStr ks)).map Hotkey.action := by
  intro hotkeys
  induction hotkeys with
  | nil => rfl
  | cons h t ih =>
    cases hm : hotkey_matches keyStr ks h <;>
      simp [scan_hotkeys, List.find?_cons, hm, ih]

theorem on_press_action_eq_scan (keyStr : String) (ks : KeyStates)
    (hotkeys : List Hotkey) (hc : is_ctrl_key keyStr = false)
    (ha : is_alt_key keyStr = false) :
    (on_press keyStr ks hotkeys).2 = scan_hotkeys keyStr ks hotkeys := by
  unfold on_press
  rw [hc, ha]
  simp only [Bool.false_eq_true, if_false]
  cases scan_hotkeys keyStr ks hotkeys <;> rfl

/-- C3 (amended): for a non-modifier key event the enqueued action is that of
the first binding in table order whose lower-cased combination contains the
key string as a substring and at least one of whose named modifiers (`ctrl`
occurring in the combination with ctrl down, or `alt` occurring with alt
down) is satisfied; no action is produced when no binding passes this test. -/
theorem on_press_first_match (keyStr : String) (ks : KeyStates)
    (hotkeys : List Hotkey) (hc : is_ctrl_key keyStr = false)
    (ha : is_alt_key keyStr = false) :
    (on_press keyStr ks hotkeys).2 =
      (hotkeys.find? (hotkey_matches keyStr ks)).map Hotkey.action := by
  rw [on_press_action_eq_scan keyStr ks hotkeys hc ha]
  exact scan_hotkeys_eq_find keyStr ks hotkeys

theorem on_press_first_match_witness :
    (on_press "q" ⟨true, false⟩ [⟨"ctrl+q", "fix"⟩]).2 =
      (([⟨"ctrl+q", "fix"⟩] : List Hotkey).find? (hotkey_matches "q" ⟨true, false⟩)).map
        Hotkey.action :=
  on_press_first_match "q" ⟨true, false⟩ [⟨"ctrl+q", "fix"⟩]
    (of_decide_eq_true (by with_unfolding_all rfl))
    (of_decide_eq_true (by with_unfolding_all rfl))

/-- C5, counterexample: with the binding `ctrl+q → fix` and the event
sequence Ctrl down, Q down, Q up, Q down (Ctrl never released), `fix` is
produced only on the first Q press; the claimed second `fix` on the re-press
does not happen, because the first match cleared the tracked ctrl flag. -/
theorem hotkey_not_repeatable_cex :
    (run_key_events [⟨"ctrl+q", "fix"⟩] ⟨false, false⟩
        [KeyEvent.press "ctrl_l", KeyEvent.press "q", KeyEvent.release "q",
          KeyEvent.press "q"]).2 = [none, some "fix", none, none] :=
  of_decide_eq_true (by with_unfolding_all rfl)

/-- C5 (amended): pressing Ctrl then Q yields `fix`; releasing Q and pressing
it again while Ctrl stays physically held yields nothing, because the match
consumed the tracked ctrl state; a fresh Ctrl press re-arms the combination,
after which Q yields `fix` again. -/
theorem hotkey_retrigger_needs_fresh_ctrl :
    (run_key_events [⟨"ctrl+q", "fix"⟩] ⟨false, false⟩
        [KeyEvent.press "ctrl_l", KeyEvent.press "q", KeyEvent.release "q",
          KeyEvent.press "q", KeyEvent.press "ctrl_l", KeyEvent.press "q"]).2 =
      [none, some "fix", none, none, none, some "fix"] :=
  of_decide_eq_true (by with_unfolding_all rfl)

/-- C7, counterexample: `q` is not a modifier key, yet pressing it with ctrl
held and a matching binding `ctrl+q` changes the tracked modifier state (the
match clears both flags), contradicting the claim that every non-modifier key
event leaves the tracked state unchanged. -/
theorem modifier_state_changed_by_match_cex :
    is_ctrl_key "q" = false ∧ is_alt_key "q" = false ∧
      (on_press "q" ⟨true, false⟩ [⟨"ctrl+q", "fix"⟩]).1 ≠ (⟨true, false⟩ : KeyStates) :=
  of_decide_eq_true (by with_unfolding_all rfl)

theorem alt_key_not_ctrl_key (keyStr : String) (h : is_alt_key keyStr = true) :
    is_ctrl_key keyStr = false := by
  unfold is_alt_key at h
  simp only [Bool.or_eq_true, beq_iff_eq] at h
  rcases h with (rfl | rfl) | rfl <;> rfl

/-- C7 (amended): a press of LeftCtrl/RightCtrl sets ctrl and a release
clears it; symmetrically for Alt with AltGr treated identically; an event for
any other key leaves the tracked modifier state unchanged, except that a
press that matches a hotkey binding clears both ctrl and alt (the consume
step of the resolver). -/
theorem modifier_state_transitions (keyStr : String) (ks : KeyStates)
    (hotkeys : List Hotkey) :
    (is_ctrl_key keyStr = true →
        (on_press keyStr ks hotkeys).1 = { ks with ctrl := true } ∧
          on_release keyStr ks = { ks with ctrl := false }) ∧
      (is_alt_key keyStr = true →
        (on_press keyStr ks hotkeys).1 = { ks with alt := true } ∧
          on_release keyStr ks = { ks with alt := false }) ∧
      (is_ctrl_key keyStr = false → is_alt_key keyStr = false →
        on_release keyStr ks = ks ∧
          ((on_press keyStr ks hotkeys).2 = none → (on_press keyStr ks hotkeys).1 = ks) ∧
          ((on_press keyStr ks hotkeys).2 ≠ none →
            (on_press keyStr ks hotkeys).1 = ⟨false, false⟩)) := by
  refine ⟨fun h => ?_, fun h => ?_, fun hc ha => ?_⟩
  · unfold on_press on_release
    rw [h]
    simp
  · have hc := alt_key_not_ctrl_key keyStr h
    unfold on_press on_release
    rw [hc, h]
    simp
  · unfold on_press on_release
    rw [hc, ha]
    simp only [Bool.false_eq_true, if_false]
    cases hs : scan_hotkeys keyStr ks hotkeys <;> simp [hs]

theorem modifier_state_transitions_witness :
    (on_press "ctrl_l" (⟨true, false⟩ : KeyStates) ([] : List Hotkey)).1 =
        (⟨true, false⟩ : KeyStates) ∧
      on_release "ctrl_l" (⟨true, false⟩ : KeyStates) = (⟨false, false⟩ : KeyStates) :=
  (modifier_state_transitions "ctrl_l" ⟨true, false⟩ []).1 rfl

/-! ## Text-transform pipeline (`main.py`) -/

/-- Outcome of the external Gemini call made inside
`process_text_with_gemini`: a response with its text, a timeout
(`concurrent.futures.TimeoutError` from `call_with_timeout`, hard 45s
deadline), or any other exception. -/
inductive GeminiOutcome where
  | success (text : String)
  | timeout
  | failure (msg : String)
deriving DecidableEq, Repr

/-- Embedding of `process_text_with_gemini` (`main.py` lines 71-89): a
non-empty response text is returned stripped; an empty response, a timeout or
any exception yields the empty string (both failure branches are caught,
logged, and return `""`). -/
def process_text_with_gemini (outcome : GeminiOutcome) : String :=
  match outcome with
  | .success t => if t = "" then "" else t.trim
  | .timeout => ""
  | .failure _ => ""

/-- Observable side effects of `_handle_text_operation`, in order of
occurrence. -/
inductive Effect where
  | releaseAlt
  | playSound (name : String)
  | sendCopy
  | invokeTransform
  | clipboardWrite (s : String)
  | sendPaste
deriving DecidableEq, Repr

/-- Embedding of `_handle_text_operation` (`main.py` lines 117-149) as the
trace of its side effects: release Alt if held, play the start sound, inject
Ctrl+C and read the clipboard; stop if the captured text strips to empty;
otherwise invoke the transform, write its result to the clipboard
unconditionally (line 139), inject Ctrl+V (lines 142-146) and play the end
sound. -/
def handle_text_operation (altHeld : Bool) (clipTextAfterCopy : String)
    (outcome : GeminiOutcome) : List Effect :=
  (if altHeld then [Effect.releaseAlt] else []) ++
    [Effect.playSound "in", Effect.sendCopy] ++
    (if clipTextAfterCopy.trim = "" then []
     else
      [Effect.invokeTransform,
        Effect.clipboardWrite (process_text_with_gemini outcome),
        Effect.sendPaste, Effect.playSound "out"])

/-- Whether a trace contains a clipboard write (of any payload). -/
def writes_clipboard (t : List Effect) : Bool :=
  t.any fun e =>
    match e with
    | Effect.clipboardWrite _ => true
    | _ => false

/-- C2, counterexample: with non-blank text captured from the clipboard and a
transform call that times out, the handler still writes the (empty) result to
the clipboard and injects a paste — the clipboard is not left untouched. -/
theorem timeout_still_writes_clipboard_cex :
    Effect.clipboardWrite "" ∈ handle_text_operation false "hello" GeminiOutcome.timeout ∧
      Effect.sendPaste ∈ handle_text_operation false "hello" GeminiOutcome.timeout :=
  of_decide_eq_true (by with_unfolding_all rfl)

/-- C2 (amended): on timeout or error the transform call returns the empty
string, and the handler then still writes that empty string to the clipboard
and injects a paste — the previous clipboard content is overwritten rather
than left untouched; no retry occurs. -/
theorem timeout_overwrites_clipboard (altHeld : Bool) (clip : String)
    (outcome : GeminiOutcome) (hclip : clip.trim ≠ "")
    (hfail : outcome = GeminiOutcome.timeout ∨ ∃ m, outcome = GeminiOutcome.failure m) :
    process_text_with_gemini outcome = "" ∧
      Effect.clipboardWrite "" ∈ handle_text_operation altHeld clip outcome ∧
      Effect.sendPaste ∈ handle_text_operation altHeld clip outcome := by
  have hempty : process_text_with_gemini outcome = "" := by
    rcases hfail with rfl | ⟨m, rfl⟩ <;> rfl
  refine ⟨hempty, ?_, ?_⟩ <;>
  · unfold handle_text_operation
    rw [if_neg hclip, hempty]
    cases altHeld <;> simp

theorem timeout_overwrites_clipboard_witness :
    process_text_with_gemini GeminiOutcome.timeout = "" ∧
      Effect.clipboardWrite "" ∈ handle_text_operation true "x" GeminiOutcome.timeout ∧
      Effect.sendPaste ∈ handle_text_operation true "x" GeminiOutcome.timeout :=
  timeout_overwrites_clipboard true "x" GeminiOutcome.timeout
    (of_decide_eq_true (by with_unfolding_all rfl)) (Or.inl rfl)

/-- C9: when the text read back after the simulated copy is empty or
whitespace-only, the handler returns before invoking the transformer: the
trace is exactly the pre-transform prefix, with no transform invocation, no
clipboard write and no paste injection. -/
theorem empty_clipboard_short_circuits (altHeld : Bool) (clip : String)
    (outcome : GeminiOutcome) (hclip : clip.trim = "") :
    handle_text_operation altHeld clip outcome =
        (if altHeld then [Effect.releaseAlt] else []) ++
          [Effect.playSound "in", Effect.sendCopy] ∧
      Effect.invokeTransform ∉ handle_text_operation altHeld clip outcome ∧
      writes_clipboard (handle_text_operation altHeld clip outcome) = false ∧
      Effect.sendPaste ∉ handle_text_operation altHeld clip outcome := by
  unfold handle_text_operation
  rw [if_pos hclip]
  refine ⟨by simp, ?_, ?_, ?_⟩ <;> cases altHeld <;> simp [writes_clipboard]

theorem empty_clipboard_short_circuits_witness :
    handle_text_operation false " " GeminiOutcome.timeout =
        (if false then [Effect.releaseAlt] else []) ++
          [Effect.playSound "in", Effect.sendCopy] ∧
      Effect.invokeTransform ∉ handle_text_operation false " " GeminiOutcome.timeout ∧
      writes_clipboard (handle_text_operation false " " GeminiOutcome.timeout) = false ∧
      Effect.sendPaste ∉ handle_text_operation false " " GeminiOutcome.timeout :=
  empty_clipboard_short_circuits false " " GeminiOutcome.timeout
    (of_decide_eq_true (by with_unfolding_all rfl))

end ClipGen
